import Mathlib

/-!
# Verification of the shopify-inventory-api repository

Shallow embedding of the repository's core logic (variant matcher,
inventory validator, order assembler, request handlers) and proofs of
the spec's testable properties against that embedding.

Strings that undergo JavaScript-level manipulation (lower-casing,
substring search, whitespace splitting) are modelled as `List Char`;
plain record fields are modelled as Lean `String`.  Absent (undefined)
JavaScript values are modelled as `none`; JavaScript falsiness of a
string value (`undefined` or `""`) is modelled by `jsStr`.
-/

/-- JavaScript truthiness for an optional string: `undefined` and the
empty string are falsy; any other string is truthy.  Returns the value
when truthy, `none` otherwise. -/
def jsStr (x : Option String) : Option String :=
  match x with
  | none => none
  | some s => if s = "" then none else some s

/-- `a || d` for an optional string `a` and a default `d`. -/
def fb (x : Option String) (d : String) : String :=
  (jsStr x).getD d

/-- `a || b || d`: first truthy of `a`, `b`, else the default `d`. -/
def fb2 (x y : Option String) (d : String) : String :=
  match jsStr x with
  | some s => s
  | none => fb y d

/-- JavaScript truthiness for optional character-list strings
(used by the variant matcher's `filter(Boolean)`). -/
def jsStrL (x : Option (List Char)) : Option (List Char) :=
  match x with
  | none => none
  | some s => if s = [] then none else some s

/-- ASCII lower-casing of a character list, the model of
JavaScript `String.prototype.toLowerCase` on the data in scope. -/
def lowerStr (s : List Char) : List Char :=
  s.map Char.toLower

/-- `listStarts needle hay`: `hay` starts with `needle`. -/
def listStarts : List Char → List Char → Bool
  | [], _ => true
  | _ :: _, [] => false
  | a :: as, b :: bs => a = b && listStarts as bs

/-- `jsIncludes hay needle`: model of JavaScript
`hay.includes(needle)` (substring containment). -/
def jsIncludes : List Char → List Char → Bool
  | [], needle => needle.isEmpty
  | c :: rest, needle => listStarts needle (c :: rest) || jsIncludes rest needle

/-- A whitespace character, as matched by the regex `\s` on the
ASCII range used here. -/
def isWsChar (c : Char) : Bool :=
  c = ' ' || c = '\t' || c = '\n' || c = '\r'

/-- Worker for `splitWs`.  `inWs` records whether the previous
character belonged to a whitespace run; `cur` is the current chunk in
reverse. -/
def splitWsAux : Bool → List Char → List Char → List (List Char)
  | _, cur, [] => [cur.reverse]
  | inWs, cur, c :: rest =>
    if isWsChar c then
      if inWs then splitWsAux true cur rest
      else cur.reverse :: splitWsAux true [] rest
    else splitWsAux false (c :: cur) rest

/-- Model of JavaScript `s.split(/\s+/)`: split on maximal whitespace
runs, keeping the (possibly empty) leading and trailing chunks, and
returning `[""]` on the empty string. -/
def splitWs (s : List Char) : List (List Char) :=
  splitWsAux false [] s

/-- `String.intercalate` on character lists. -/
def joinSep (sep : String) (parts : List (List Char)) : List Char :=
  match parts with
  | [] => []
  | p :: ps => ps.foldl (fun acc q => acc ++ sep.data ++ q) p

/-- A Shopify product variant as consumed by `findBestVariant`
(src/index.js:58 and src/unnamed/part_002:56). -/
structure JsVariant where
  id : Nat
  title : Option (List Char)
  option1 : Option (List Char)
  option2 : Option (List Char)
  option3 : Option (List Char)
  inventory_quantity : Option Int
  availableFlag : Option Bool
  price : List Char
deriving DecidableEq, Repr

/-- A Shopify product as consumed by `findBestVariant`. -/
structure JsProduct where
  title : List Char
  variants : List JsVariant
deriving DecidableEq, Repr

/-- `[variant.option1, variant.option2, variant.option3].filter(Boolean).join(' / ')`
at src/index.js:66-70. -/
def variantOptionsOf (v : JsVariant) : List Char :=
  joinSep " / " (([v.option1, v.option2, v.option3].filterMap jsStrL))

/-- `variant.title || ''` at src/index.js:65. -/
def variantTitleOf (v : JsVariant) : List Char :=
  (jsStrL v.title).getD []

/-- The match-score computation of `findBestVariant`
(src/index.js:72-94, identical in src/unnamed/part_002:70-92):
exact case-insensitive equality of the requested string with the
variant title or the options label scores 100; otherwise containment
of the requested string inside either candidate string scores 75;
otherwise the token-overlap ratio times 50. -/
def matchScore (requestedVariant : List Char) (v : JsVariant) : ℚ :=
  let requestedLower := lowerStr requestedVariant
  let variantLower := lowerStr (variantTitleOf v)
  let optionsLower := lowerStr (variantOptionsOf v)
  if variantLower = requestedLower ∨ optionsLower = requestedLower then 100
  else if jsIncludes variantLower requestedLower = true ∨
          jsIncludes optionsLower requestedLower = true then 75
  else
    let requestedWords := splitWs requestedLower
    let variantWords := splitWs (variantLower ++ [' '] ++ optionsLower)
    let matchedWords := requestedWords.filter (fun word =>
      variantWords.any (fun vWord => jsIncludes vWord word || jsIncludes word vWord))
    ((matchedWords.length : ℚ) / (requestedWords.length : ℚ)) * 50

/-- A scored candidate pushed onto `results` by `findBestVariant`
(src/index.js:96-108). -/
structure VariantCandidate where
  product_title : List Char
  variant_id : Nat
  variant_title : List Char
  variant_options : List Char
  inventory_quantity : Int
  availableFlag : Bool
  price : List Char
  match_score : ℚ
  display_name : List Char
deriving DecidableEq, Repr

/-- The candidate list built by `findBestVariant` before the final
descending sort by `match_score` (src/index.js:59-110): products with
no variants are skipped, and variants scoring 0 are excluded. -/
def findBestVariantResults (products : List JsProduct) (requestedVariant : List Char) :
    List VariantCandidate :=
  products.flatMap (fun product =>
    if product.variants.isEmpty then []
    else product.variants.filterMap (fun v =>
      let score := matchScore requestedVariant v
      if 0 < score then
        some { product_title := product.title
               variant_id := v.id
               variant_title := variantTitleOf v
               variant_options := variantOptionsOf v
               inventory_quantity := v.inventory_quantity.getD 0
               availableFlag := v.availableFlag.getD false
               price := v.price
               match_score := score
               display_name := (jsStrL (some (variantOptionsOf v))).getD
                 ((jsStrL (some (variantTitleOf v))).getD "Default".data) }
      else none))

/-- Number of requested tokens (`requestedWords.length` in the
token-overlap branch of `findBestVariant`). -/
def tokenTotal (req : List Char) : Nat :=
  (splitWs (lowerStr req)).length

/-- Number of requested tokens matched by some candidate token
(`matches.length` in the token-overlap branch of `findBestVariant`). -/
def tokenMatchCount (req : List Char) (v : JsVariant) : Nat :=
  let requestedLower := lowerStr req
  let variantLower := lowerStr (variantTitleOf v)
  let optionsLower := lowerStr (variantOptionsOf v)
  ((splitWs requestedLower).filter (fun word =>
    (splitWs (variantLower ++ [' '] ++ optionsLower)).any
      (fun vWord => jsIncludes vWord word || jsIncludes word vWord))).length

theorem jsIncludes_nil_needle (hay : List Char) : jsIncludes hay [] = true := by
  cases hay <;> rfl

theorem splitWsAux_ne_nil (l : List Char) : ∀ (b : Bool) (cur : List Char),
    splitWsAux b cur l ≠ [] := by
  induction l with
  | nil => intro b cur; simp [splitWsAux]
  | cons c rest ih =>
    intro b cur
    rw [splitWsAux]
    by_cases hc : isWsChar c = true
    · rw [if_pos hc]
      cases b
      · simp only [Bool.false_eq_true, if_false]
        exact List.cons_ne_nil _ _
      · simpa using ih true cur
    · rw [if_neg hc]
      exact ih false (c :: cur)

theorem tokenTotal_pos (req : List Char) : 0 < tokenTotal req :=
  List.length_pos.mpr (splitWsAux_ne_nil _ false [])

theorem tokenMatchCount_le (req : List Char) (v : JsVariant) :
    tokenMatchCount req v ≤ tokenTotal req :=
  List.length_filter_le _ _

theorem matchScore_exact (req : List Char) (v : JsVariant)
    (h : lowerStr (variantTitleOf v) = lowerStr req ∨
         lowerStr (variantOptionsOf v) = lowerStr req) :
    matchScore req v = 100 := by
  simp only [matchScore]
  rw [if_pos h]

theorem matchScore_substr (req : List Char) (v : JsVariant)
    (h1 : ¬(lowerStr (variantTitleOf v) = lowerStr req ∨
            lowerStr (variantOptionsOf v) = lowerStr req))
    (h2 : jsIncludes (lowerStr (variantTitleOf v)) (lowerStr req) = true ∨
          jsIncludes (lowerStr (variantOptionsOf v)) (lowerStr req) = true) :
    matchScore req v = 75 := by
  simp only [matchScore]
  rw [if_neg h1, if_pos h2]

theorem matchScore_token (req : List Char) (v : JsVariant)
    (h1 : ¬(lowerStr (variantTitleOf v) = lowerStr req ∨
            lowerStr (variantOptionsOf v) = lowerStr req))
    (h2 : ¬(jsIncludes (lowerStr (variantTitleOf v)) (lowerStr req) = true ∨
            jsIncludes (lowerStr (variantOptionsOf v)) (lowerStr req) = true)) :
    matchScore req v = (tokenMatchCount req v : ℚ) / (tokenTotal req : ℚ) * 50 := by
  simp only [matchScore]
  rw [if_neg h1, if_neg h2]
  rfl

theorem matchScore_token_le (req : List Char) (v : JsVariant) :
    (tokenMatchCount req v : ℚ) / (tokenTotal req : ℚ) * 50 ≤ 50 := by
  have hn : (0 : ℚ) < (tokenTotal req : ℚ) := by
    exact_mod_cast tokenTotal_pos req
  have hdiv : (tokenMatchCount req v : ℚ) / (tokenTotal req : ℚ) ≤ 1 := by
    rw [div_le_one hn]
    exact_mod_cast tokenMatchCount_le req v
  calc (tokenMatchCount req v : ℚ) / (tokenTotal req : ℚ) * 50
      ≤ 1 * 50 := by
        exact mul_le_mul_of_nonneg_right hdiv (by norm_num)
    _ = 50 := by norm_num

/-- A concrete variant with title "blue" and no options. -/
def cexVariantBlue : JsVariant :=
  { id := 1, title := some "blue".data, option1 := none, option2 := none, option3 := none,
    inventory_quantity := some 3, availableFlag := none, price := "10.00".data }

/-- A concrete variant with title "blue" and option1 "Large". -/
def cexVariantLarge : JsVariant :=
  { id := 2, title := some "blue".data, option1 := some "Large".data, option2 := none,
    option3 := none, inventory_quantity := some 4, availableFlag := none,
    price := "12.00".data }

/-- C3 counterexample: the claim says substring containment *in either
direction* scores 75.  For requested string "large blue" and a variant
titled "blue", the requested string contains the candidate title as a
substring (and no exact match holds), yet `findBestVariant` scores it
50, not 75: the code only tests whether the candidate contains the
requested string, not the reverse direction. -/
theorem C3_counterexample :
    jsIncludes (lowerStr "large blue".data) (lowerStr (variantTitleOf cexVariantBlue)) = true ∧
    ¬(lowerStr (variantTitleOf cexVariantBlue) = lowerStr "large blue".data ∨
      lowerStr (variantOptionsOf cexVariantBlue) = lowerStr "large blue".data) ∧
    matchScore "large blue".data cexVariantBlue = 50 ∧ (50 : ℚ) ≠ 75 := by
  refine ⟨by decide, by decide, ?_, by norm_num⟩
  rw [matchScore_token _ _ (by decide) (by decide)]
  rw [show tokenMatchCount "large blue".data cexVariantBlue = 2 from by decide,
      show tokenTotal "large blue".data = 2 from by decide]
  norm_num

/-- C3 (amended): `findBestVariant` scores each variant by the first
matching rule: exact case-insensitive equality with the variant title
or the composite option label gives 100; containment of the requested
string inside either candidate string (one direction only) gives 75;
otherwise the score is (matched requested tokens)/(total requested
tokens) × 50, which is always between 0 and 50.  Hence an exact match
(100) always outranks a substring match (75), which always outranks a
token-overlap match (≤ 50). -/
theorem C3_amended_scoring (req : List Char) (v : JsVariant) :
    ((lowerStr (variantTitleOf v) = lowerStr req ∨
      lowerStr (variantOptionsOf v) = lowerStr req) →
       matchScore req v = 100) ∧
    (¬(lowerStr (variantTitleOf v) = lowerStr req ∨
       lowerStr (variantOptionsOf v) = lowerStr req) →
     (jsIncludes (lowerStr (variantTitleOf v)) (lowerStr req) = true ∨
      jsIncludes (lowerStr (variantOptionsOf v)) (lowerStr req) = true) →
       matchScore req v = 75) ∧
    (¬(lowerStr (variantTitleOf v) = lowerStr req ∨
       lowerStr (variantOptionsOf v) = lowerStr req) →
     ¬(jsIncludes (lowerStr (variantTitleOf v)) (lowerStr req) = true ∨
       jsIncludes (lowerStr (variantOptionsOf v)) (lowerStr req) = true) →
       matchScore req v = (tokenMatchCount req v : ℚ) / (tokenTotal req : ℚ) * 50 ∧
       0 ≤ matchScore req v ∧ matchScore req v ≤ 50) := by
  refine ⟨matchScore_exact req v, matchScore_substr req v, fun h1 h2 => ?_⟩
  have he := matchScore_token req v h1 h2
  refine ⟨he, ?_, ?_⟩
  · rw [he]; positivity
  · rw [he]; exact matchScore_token_le req v

/-- Witness for C3: a concrete exact match scores 100, a concrete
one-directional substring match scores 75. -/
theorem C3_witness :
    matchScore "blue".data cexVariantBlue = 100 ∧
    matchScore "blu".data cexVariantBlue = 75 := by
  exact ⟨(C3_amended_scoring "blue".data cexVariantBlue).1 (by decide),
         (C3_amended_scoring "blu".data cexVariantBlue).2.1 (by decide) (by decide)⟩

/-- C6 counterexample: the claim says the empty requested string is
handled by a score-0 fallback in the token-overlap computation.  In
the code the empty requested string never reaches the token-overlap
branch: a variant whose option label is empty matches the empty string
*exactly* (score 100), and any other variant contains the empty string
as a substring (score 75); either way the variant enters the result
list with a positive score instead of being excluded with score 0. -/
theorem C6_counterexample :
    matchScore [] cexVariantBlue = 100 ∧
    matchScore [] cexVariantLarge = 75 ∧
    (100 : ℚ) ≠ 0 ∧ (75 : ℚ) ≠ 0 ∧
    (findBestVariantResults [{ title := "shirt".data,
                               variants := [cexVariantBlue, cexVariantLarge] }] []).map
      (fun c => c.match_score) = [100, 75] := by
  have h1 : matchScore [] cexVariantBlue = 100 :=
    matchScore_exact [] cexVariantBlue (by decide)
  have h2 : matchScore [] cexVariantLarge = 75 :=
    matchScore_substr [] cexVariantLarge (by decide) (by decide)
  refine ⟨h1, h2, by norm_num, by norm_num, ?_⟩
  simp only [findBestVariantResults, List.flatMap_cons, List.flatMap_nil, List.append_nil]
  rw [show ([cexVariantBlue, cexVariantLarge] : List JsVariant).isEmpty = false from rfl]
  simp only [Bool.false_eq_true, if_false, List.filterMap_cons, List.filterMap_nil]
  rw [h1, h2]
  norm_num

/-- C6 (amended): the scoring of `findBestVariant` is total for the
empty requested string and no division by zero can occur: whitespace
tokenization of any string yields at least one token, and the empty
requested string never reaches the token-overlap branch at all — it
matches every variant at score 100 (exact, when the candidate field is
itself empty) or 75 (substring, since every string contains the empty
string). -/
theorem C6_amended_empty_request_total :
    (∀ req : List Char, 0 < tokenTotal req) ∧
    (∀ v : JsVariant, matchScore [] v = 100 ∨ matchScore [] v = 75) := by
  refine ⟨tokenTotal_pos, fun v => ?_⟩
  by_cases h : (lowerStr (variantTitleOf v) = lowerStr [] ∨
                lowerStr (variantOptionsOf v) = lowerStr [])
  · exact Or.inl (matchScore_exact [] v h)
  · refine Or.inr (matchScore_substr [] v h (Or.inl ?_))
    show jsIncludes (lowerStr (variantTitleOf v)) [] = true
    exact jsIncludes_nil_needle _

/-- The stock record for one variant as returned by the Shopify
variant-by-id lookup, with the fields the validator reads. -/
structure VariantStock where
  inventory_quantity : Int
  title : String
  price : String
deriving DecidableEq, Repr

/-- A line item as supplied by the caller.  `price` and `title` are
optional caller-supplied extras that some handlers forward. -/
structure LineItemReq where
  variant_id : Nat
  quantity : Int
  price : Option String
  title : Option String
deriving DecidableEq, Repr

/-- An `InventoryResult` as built by `validateInventoryForOrder` in
src/unnamed/part_000:22-58: both the success and the failure branch
populate all five fields; a failed lookup yields title
"Unknown Product", `available_quantity = 0` and `available = false`. -/
structure InvResult000 where
  variant_id : Nat
  title : String
  requested_quantity : Int
  available_quantity : Int
  available : Bool
deriving DecidableEq, Repr

/-- An `InventoryResult` as built by `validateInventoryForOrder` in
src/index.js:214-251 and src/unnamed/part_001:69-100: the failure
branch pushes only `variant_id`, `available: false` and an `error`
string, leaving every other field absent. -/
structure InvResultIdx where
  variant_id : Nat
  requested_quantity : Option Int
  available_quantity : Option Int
  available : Bool
  title : Option String
  price : Option String
  error : Option String
deriving DecidableEq, Repr

/-- One loop iteration of `validateInventoryForOrder`
(src/unnamed/part_000:25-55).  `lookup` models the variant-by-id API
call: `some` is a successful response, `none` a thrown error. -/
def checkItem000 (lookup : Nat → Option VariantStock) (item : LineItemReq) : InvResult000 :=
  match lookup item.variant_id with
  | some variant =>
    { variant_id := item.variant_id
      title := variant.title
      requested_quantity := item.quantity
      available_quantity := variant.inventory_quantity
      available := decide (item.quantity ≤ variant.inventory_quantity) }
  | none =>
    { variant_id := item.variant_id
      title := "Unknown Product"
      requested_quantity := item.quantity
      available_quantity := 0
      available := false }

/-- One loop iteration of `validateInventoryForOrder`
(src/index.js:217-247, src/unnamed/part_001:71-98). -/
def checkItemIdx (lookup : Nat → Option VariantStock) (item : LineItemReq) : InvResultIdx :=
  match lookup item.variant_id with
  | some variant =>
    { variant_id := item.variant_id
      requested_quantity := some item.quantity
      available_quantity := some variant.inventory_quantity
      available := decide (item.quantity ≤ variant.inventory_quantity)
      title := some variant.title
      price := some variant.price
      error := none }
  | none =>
    { variant_id := item.variant_id
      requested_quantity := none
      available_quantity := none
      available := false
      title := none
      price := none
      error := some "Could not verify inventory" }

/-- `validateInventoryForOrder` of src/unnamed/part_000:22-58: the
sequential for-loop pushing one result per line item. -/
def validateInventoryForOrder000 (lookup : Nat → Option VariantStock) :
    List LineItemReq → List InvResult000
  | [] => []
  | item :: rest => checkItem000 lookup item :: validateInventoryForOrder000 lookup rest

/-- `validateInventoryForOrder` of src/index.js:214-251 and
src/unnamed/part_001:69-100. -/
def validateInventoryForOrderIdx (lookup : Nat → Option VariantStock) :
    List LineItemReq → List InvResultIdx
  | [] => []
  | item :: rest => checkItemIdx lookup item :: validateInventoryForOrderIdx lookup rest

theorem validate000_eq_map (lookup : Nat → Option VariantStock) (items : List LineItemReq) :
    validateInventoryForOrder000 lookup items = items.map (checkItem000 lookup) := by
  induction items with
  | nil => rfl
  | cons item rest ih => simp [validateInventoryForOrder000, ih]

theorem validateIdx_eq_map (lookup : Nat → Option VariantStock) (items : List LineItemReq) :
    validateInventoryForOrderIdx lookup items = items.map (checkItemIdx lookup) := by
  induction items with
  | nil => rfl
  | cons item rest ih => simp [validateInventoryForOrderIdx, ih]

/-- C1 counterexample: the claim says a failed stock lookup always
yields `available_quantity = 0`.  In the revision of src/index.js and
src/unnamed/part_001 the failure branch pushes a result without any
`available_quantity` field at all (modelled as `none`), together with
`available = false` and an error string. -/
theorem C1_counterexample :
    validateInventoryForOrderIdx (fun _ => none) [⟨7, 5, none, none⟩] =
      [{ variant_id := 7, requested_quantity := none, available_quantity := none,
         available := false, title := none, price := none,
         error := some "Could not verify inventory" }] ∧
    ({ variant_id := 7, requested_quantity := none, available_quantity := none,
       available := false, title := none, price := none,
       error := some "Could not verify inventory" : InvResultIdx }).available_quantity ≠
      some 0 := by
  exact ⟨rfl, by simp⟩

/-- C1 (amended): for every line item with positive requested
quantity, `available = true` iff `available_quantity ≥
requested_quantity`; on lookup failure `available = false` in every
revision, with `available_quantity = 0` in the src/unnamed/part_000
revision but the `available_quantity` field absent (together with
title and requested quantity) in the src/index.js / src/unnamed/part_001
revision. -/
theorem C1_amended_inventory_result (lookup : Nat → Option VariantStock)
    (item : LineItemReq) (h : 0 < item.quantity) :
    ((checkItem000 lookup item).available = true ↔
      (checkItem000 lookup item).requested_quantity ≤
        (checkItem000 lookup item).available_quantity) ∧
    (lookup item.variant_id = none →
      (checkItem000 lookup item).available = false ∧
      (checkItem000 lookup item).available_quantity = 0 ∧
      (checkItemIdx lookup item).available = false ∧
      (checkItemIdx lookup item).available_quantity = none ∧
      (checkItemIdx lookup item).error = some "Could not verify inventory") ∧
    (∀ v : VariantStock, lookup item.variant_id = some v →
      ((checkItemIdx lookup item).available = true ↔
        item.quantity ≤ v.inventory_quantity) ∧
      (checkItemIdx lookup item).available_quantity = some v.inventory_quantity ∧
      (checkItemIdx lookup item).requested_quantity = some item.quantity) := by
  rcases hl : lookup item.variant_id with _ | v
  · refine ⟨?_, fun _ => by simp [checkItem000, checkItemIdx, hl],
      fun v hv => Option.noConfusion hv⟩
    simp only [checkItem000, hl]
    constructor
    · intro hfalse; cases hfalse
    · intro hle; omega
  · refine ⟨by simp [checkItem000, hl], fun hn => Option.noConfusion hn, fun w hw => ?_⟩
    cases hw
    simp [checkItemIdx, hl]

/-- Witness for C1: a failing lookup on a request for 5 units yields
`available = false` with the quantity field absent in the
src/index.js revision, and `available_quantity = 0` in the
src/unnamed/part_000 revision. -/
theorem C1_witness :
    (checkItemIdx (fun _ => none) ⟨7, 5, none, none⟩).available = false ∧
    (checkItemIdx (fun _ => none) ⟨7, 5, none, none⟩).available_quantity = none ∧
    (checkItem000 (fun _ => none) ⟨7, 5, none, none⟩).available_quantity = 0 := by
  have h := C1_amended_inventory_result (fun _ => none) ⟨7, 5, none, none⟩ (by norm_num)
  exact ⟨(h.2.1 rfl).2.2.1, (h.2.1 rfl).2.2.2.1, (h.2.1 rfl).2.1⟩

/-- C2 (confirmed): both revisions of `validateInventoryForOrder`
return exactly one `InventoryResult` per input line item, in input
order; the i-th output is the per-item check of the i-th input
regardless of whether its lookup succeeds, so a failure neither aborts
the batch nor removes the item's entry. -/
theorem C2_validator_shape (lookup : Nat → Option VariantStock) (items : List LineItemReq) :
    (validateInventoryForOrder000 lookup items).length = items.length ∧
    (validateInventoryForOrderIdx lookup items).length = items.length ∧
    (∀ i : Nat, (validateInventoryForOrder000 lookup items)[i]? =
      (items[i]?).map (checkItem000 lookup)) ∧
    (∀ i : Nat, (validateInventoryForOrderIdx lookup items)[i]? =
      (items[i]?).map (checkItemIdx lookup)) := by
  rw [validate000_eq_map, validateIdx_eq_map]
  refine ⟨List.length_map _ _, List.length_map _ _, fun i => ?_, fun i => ?_⟩ <;>
    simp [List.getElem?_map]

/-- A raw inbound address object; every field may be absent. -/
structure AddressIn where
  first_name : Option String
  last_name : Option String
  address1 : Option String
  city : Option String
  province : Option String
  country : Option String
  zip : Option String
  phone : Option String
  email : Option String
deriving DecidableEq, Repr

/-- Raw inbound `customer_info`. -/
structure CustomerInRaw where
  first_name : Option String
  last_name : Option String
  email : Option String
  phone : Option String
deriving DecidableEq, Repr

/-- The assembled customer record (`customerData` in
src/unnamed/part_001:176-181). -/
structure CustomerRec where
  first_name : String
  last_name : String
  email : String
  phone : String
deriving DecidableEq, Repr

/-- The assembled billing address of src/unnamed/part_001:195-205
(it also carries the customer email). -/
structure BillingAddress001 where
  first_name : String
  last_name : String
  email : String
  phone : String
  address1 : String
  city : String
  province : String
  country : String
  zip : String
deriving DecidableEq, Repr

/-- The assembled shipping address of src/unnamed/part_001:206-215. -/
structure ShippingAddress001 where
  first_name : String
  last_name : String
  phone : String
  address1 : String
  city : String
  province : String
  country : String
  zip : String
deriving DecidableEq, Repr

/-- A line item as forwarded to draft-order creation by
src/unnamed/part_001:191-194: only `variant_id` and `quantity`. -/
structure OrderLineOut where
  variant_id : Nat
  quantity : Int
deriving DecidableEq, Repr

/-- A line item as forwarded to order creation by the
`/place-order-direct` handler of src/index.js:581-585: `variant_id`,
`quantity` and the caller-supplied `price`. -/
structure OrderLineOutDirect where
  variant_id : Nat
  quantity : Int
  price : Option String
deriving DecidableEq, Repr

/-- The `orderData` aggregate handed to `createShopifyDraftOrder`
(src/unnamed/part_001:189-217). -/
structure OrderData001 where
  customer : CustomerRec
  line_items : List OrderLineOut
  billing_address : BillingAddress001
  shipping_address : ShippingAddress001
  note : String
deriving DecidableEq, Repr

/-- `customerData` of src/unnamed/part_001:176-181: defaults
"Unknown" / "Customer" / "" and the guard-validated email. -/
def customerData001 (ci : CustomerInRaw) (email : String) : CustomerRec :=
  { first_name := fb ci.first_name "Unknown"
    last_name := fb ci.last_name "Customer"
    email := email
    phone := fb ci.phone "" }

/-- The `orderData` construction of src/unnamed/part_001:189-217:
billing location fields fall back billing → shipping → placeholder,
shipping location fields fall back shipping → placeholder, and all
name/phone/email address fields come from `customerData`. -/
def orderData001 (cd : CustomerRec) (items : List LineItemReq)
    (shipping billing : Option AddressIn) (special : Option String) : OrderData001 :=
  { customer := cd
    line_items := items.map (fun i => { variant_id := i.variant_id, quantity := i.quantity })
    billing_address :=
      { first_name := cd.first_name
        last_name := cd.last_name
        email := cd.email
        phone := cd.phone
        address1 := fb2 (billing.bind (·.address1)) (shipping.bind (·.address1))
          "Address not provided"
        city := fb2 (billing.bind (·.city)) (shipping.bind (·.city)) "City not provided"
        province := fb2 (billing.bind (·.province)) (shipping.bind (·.province))
          "Province not provided"
        country := fb2 (billing.bind (·.country)) (shipping.bind (·.country))
          "Country not provided"
        zip := fb2 (billing.bind (·.zip)) (shipping.bind (·.zip)) "Zip not provided" }
    shipping_address :=
      { first_name := cd.first_name
        last_name := cd.last_name
        phone := cd.phone
        address1 := fb (shipping.bind (·.address1)) "Address not provided"
        city := fb (shipping.bind (·.city)) "City not provided"
        province := fb (shipping.bind (·.province)) "Province not provided"
        country := fb (shipping.bind (·.country)) "Country not provided"
        zip := fb (shipping.bind (·.zip)) "Zip not provided" }
    note := fb special "Draft order created via Bland AI phone call" }

/-- The line-item projection of the `/place-order-direct` handler
(src/index.js:581-585), which additionally forwards `price`. -/
def lineItemsDirectIdx (items : List LineItemReq) : List OrderLineOutDirect :=
  items.map (fun i => { variant_id := i.variant_id, quantity := i.quantity, price := i.price })

/-- Rendering of a possibly-absent JS number into a template string.
An absent value renders as "undefined". -/
def jsNumOpt : Option Int → String
  | none => "undefined"
  | some n => toString n

/-- Rendering of `x || 0` for a possibly-absent JS number. -/
def jsNumOptOrZero : Option Int → String
  | none => "0"
  | some n => if n = 0 then "0" else toString n

/-- One entry of the unavailable-items enumeration
(src/unnamed/part_001:150-152, src/index.js:406-408):
`title || 'Item'` plus requested and `available_quantity || 0`. -/
def unavailEntry (r : InvResultIdx) : String :=
  fb r.title "Item" ++ " (requested: " ++ jsNumOpt r.requested_quantity ++
    ", available: " ++ jsNumOptOrZero r.available_quantity ++ ")"

/-- The joined unavailable-items list (`.join(', ')`). -/
def unavailListMsg (rs : List InvResultIdx) : String :=
  String.intercalate ", " (rs.map unavailEntry)

/-- The inventory-rejection response of src/unnamed/part_001:154-160
(identical to src/index.js:410-416); `res.json` without an explicit
status sends HTTP 200. -/
structure RejectResponse where
  status : Nat
  success : Bool
  error : String
  message : String
  unavailable_items : List InvResultIdx
  call_id : Option String
deriving DecidableEq, Repr

/-- The inbound body of `POST /place-order`. -/
structure PlaceOrderReq where
  customer_info : Option CustomerInRaw
  line_items : List LineItemReq
  shipping_address : Option AddressIn
  billing_address : Option AddressIn
  special_instructions : Option String
  call_id : Option String
deriving DecidableEq, Repr

/-- Outcome of the `/place-order` handler of src/unnamed/part_001 up
to the point where the external draft-order creation call would be
issued: a 400 input-validation response, a 200 inventory rejection, or
the assembled `orderData` handed to the external call. -/
inductive Outcome001 where
  | badRequest (status : Nat) (error : String)
  | reject (r : RejectResponse)
  | proceed (d : OrderData001)
deriving DecidableEq, Repr

/-- The `/place-order` handler of src/unnamed/part_001:103-226 up to
the external draft-order creation: email guard, line-item guard,
inventory validation, rejection on any unavailable item, otherwise
assembly of `orderData`. -/
def placeOrder001 (lookup : Nat → Option VariantStock) (req : PlaceOrderReq) : Outcome001 :=
  match req.customer_info with
  | none => .badRequest 400 "Customer email is required"
  | some ci =>
    match jsStr ci.email with
    | none => .badRequest 400 "Customer email is required"
    | some email =>
      if req.line_items.isEmpty then .badRequest 400 "At least one item is required"
      else
        let inventoryCheck := validateInventoryForOrderIdx lookup req.line_items
        let unavailableItems := inventoryCheck.filter (fun r => !r.available)
        if 0 < unavailableItems.length then
          .reject { status := 200
                    success := false
                    error := "insufficient_inventory"
                    message := "Sorry, some items are not available in the requested quantities: "
                      ++ unavailListMsg unavailableItems ++ ". Please adjust your order."
                    unavailable_items := unavailableItems
                    call_id := req.call_id }
        else
          .proceed (orderData001 (customerData001 ci email) req.line_items
            req.shipping_address req.billing_address req.special_instructions)

/-- A raw billing address supplying only a city, used as a concrete
input. -/
def cexBillingDallas : AddressIn :=
  { first_name := none, last_name := none, address1 := none, city := some "Dallas",
    province := none, country := none, zip := none, phone := none, email := none }

/-- A raw shipping address supplying only a city, used as a concrete
input. -/
def cexShippingAustin : AddressIn :=
  { first_name := none, last_name := none, address1 := none, city := some "Austin",
    province := none, country := none, zip := none, phone := none, email := none }

/-- A concrete assembled customer record. -/
def cexCustomer : CustomerRec :=
  customerData001 { first_name := none, last_name := none,
                    email := some "jane@example.com", phone := none } "jane@example.com"

/-- C4 counterexample: the claim says *each* field of the assembled
billing and shipping address is resolved explicit-field → other
address → placeholder.  For a request whose billing address carries
city "Dallas" but whose shipping address is omitted, the claim
predicts assembled shipping city "Dallas" (cross-fallback from the
billing address); the code of src/unnamed/part_001:206-215 never
consults the billing address when assembling the shipping address and
yields the placeholder instead. -/
theorem C4_counterexample :
    (orderData001 cexCustomer [] none (some cexBillingDallas) none).shipping_address.city =
      "City not provided" ∧
    ("City not provided" : String) ≠ "Dallas" := by
  exact ⟨rfl, by decide⟩

/-- C4 (amended): in the src/unnamed/part_001 revision, the assembled
billing address's location fields (address1, city, province, country,
zip) are resolved billing → shipping → placeholder; the assembled
shipping address's location fields are resolved shipping →
placeholder with no fallback to the billing address (it is independent
of the billing input); the name/phone fields of both addresses come
from the assembled customer record, not from the priority chain.  The
claim's two concrete instances hold: with billing omitted and
shipping city "Austin" the assembled billing city is "Austin", and
with both addresses omitted it is "City not provided". -/
theorem C4_amended_address_assembly :
    (∀ (cd : CustomerRec) (items : List LineItemReq) (shipping billing : Option AddressIn)
        (sp : Option String),
      (orderData001 cd items shipping billing sp).billing_address.address1 =
        fb2 (billing.bind (·.address1)) (shipping.bind (·.address1)) "Address not provided" ∧
      (orderData001 cd items shipping billing sp).billing_address.city =
        fb2 (billing.bind (·.city)) (shipping.bind (·.city)) "City not provided" ∧
      (orderData001 cd items shipping billing sp).billing_address.province =
        fb2 (billing.bind (·.province)) (shipping.bind (·.province)) "Province not provided" ∧
      (orderData001 cd items shipping billing sp).billing_address.country =
        fb2 (billing.bind (·.country)) (shipping.bind (·.country)) "Country not provided" ∧
      (orderData001 cd items shipping billing sp).billing_address.zip =
        fb2 (billing.bind (·.zip)) (shipping.bind (·.zip)) "Zip not provided" ∧
      (orderData001 cd items shipping billing sp).shipping_address.address1 =
        fb (shipping.bind (·.address1)) "Address not provided" ∧
      (orderData001 cd items shipping billing sp).shipping_address.city =
        fb (shipping.bind (·.city)) "City not provided" ∧
      (orderData001 cd items shipping billing sp).shipping_address.province =
        fb (shipping.bind (·.province)) "Province not provided" ∧
      (orderData001 cd items shipping billing sp).shipping_address.country =
        fb (shipping.bind (·.country)) "Country not provided" ∧
      (orderData001 cd items shipping billing sp).shipping_address.zip =
        fb (shipping.bind (·.zip)) "Zip not provided" ∧
      (orderData001 cd items shipping billing sp).billing_address.first_name = cd.first_name ∧
      (orderData001 cd items shipping billing sp).shipping_address.first_name = cd.first_name) ∧
    (∀ (cd : CustomerRec) (items : List LineItemReq) (shipping billing billing' : Option AddressIn)
        (sp : Option String),
      (orderData001 cd items shipping billing sp).shipping_address =
        (orderData001 cd items shipping billing' sp).shipping_address) ∧
    (∀ (cd : CustomerRec) (items : List LineItemReq) (sp : Option String),
      (orderData001 cd items (some cexShippingAustin) none sp).billing_address.city =
        "Austin" ∧
      (orderData001 cd items none none sp).billing_address.city = "City not provided") := by
  refine ⟨fun cd items shipping billing sp =>
    ⟨rfl, rfl, rfl, rfl, rfl, rfl, rfl, rfl, rfl, rfl, rfl, rfl⟩,
    fun cd items shipping billing billing' sp => rfl,
    fun cd items sp => ⟨rfl, rfl⟩⟩

/-- C7 (confirmed): in the canonical revision
(src/unnamed/part_001:176-181) the assembled customer record defaults
`first_name` to "Unknown", `last_name` to "Customer" and `phone` to
the empty string when the field is absent from `customer_info`, and
the customer record inside the assembled order is `customerData001`
itself, identical for all billing/shipping inputs — never sourced from
address fields. -/
theorem C7_customer_defaults (ci : CustomerInRaw) (email : String) :
    (ci.first_name = none → (customerData001 ci email).first_name = "Unknown") ∧
    (ci.last_name = none → (customerData001 ci email).last_name = "Customer") ∧
    (ci.phone = none → (customerData001 ci email).phone = "") ∧
    (customerData001 ci email).email = email ∧
    (∀ (items : List LineItemReq) (s b s' b' : Option AddressIn) (sp sp' : Option String),
      (orderData001 (customerData001 ci email) items s b sp).customer =
        customerData001 ci email ∧
      (orderData001 (customerData001 ci email) items s b sp).customer =
        (orderData001 (customerData001 ci email) items s' b' sp').customer) := by
  refine ⟨fun h1 => ?_, fun h2 => ?_, fun h3 => ?_, rfl,
    fun items s b s' b' sp sp' => ⟨rfl, rfl⟩⟩
  · simp [customerData001, fb, jsStr, h1]
  · simp [customerData001, fb, jsStr, h2]
  · simp [customerData001, fb, jsStr, h3]

/-- Witness for C7: with only an email supplied, the assembled
customer record is Unknown / Customer / empty phone. -/
theorem C7_witness :
    (customerData001 { first_name := none, last_name := none,
                       email := some "jane@example.com", phone := none }
        "jane@example.com").first_name = "Unknown" ∧
    (customerData001 { first_name := none, last_name := none,
                       email := some "jane@example.com", phone := none }
        "jane@example.com").last_name = "Customer" ∧
    (customerData001 { first_name := none, last_name := none,
                       email := some "jane@example.com", phone := none }
        "jane@example.com").phone = "" := by
  have h := C7_customer_defaults
    { first_name := none, last_name := none,
      email := some "jane@example.com", phone := none } "jane@example.com"
  exact ⟨h.1 rfl, h.2.1 rfl, h.2.2.1 rfl⟩

/-- C8 counterexample: the claim says caller-supplied prices are never
forwarded to order creation.  The `/place-order-direct` handler of
src/index.js:581-585 projects each line item to
`{variant_id, quantity, price}`, forwarding the caller's price. -/
theorem C8_counterexample :
    lineItemsDirectIdx [⟨111, 2, some "9.99", some "Shirt"⟩] =
      [{ variant_id := 111, quantity := 2, price := some "9.99" }] ∧
    ({ variant_id := 111, quantity := 2, price := some "9.99" : OrderLineOutDirect }).price ≠
      none := by
  exact ⟨rfl, by simp⟩

/-- C8 (amended): the `/place-order` handlers project each line item
to exactly `{variant_id, quantity}` — caller-supplied price and title
are dropped whatever their values — while the `/place-order-direct`
handler of src/index.js additionally forwards the caller-supplied
`price` (title is never forwarded by any handler). -/
theorem C8_amended_line_item_projection (items : List LineItemReq) :
    (∀ (cd : CustomerRec) (s b : Option AddressIn) (sp : Option String),
      (orderData001 cd items s b sp).line_items =
        items.map (fun i => { variant_id := i.variant_id, quantity := i.quantity })) ∧
    (∀ (n : Nat) (q : Int) (p t : Option String),
      (fun (i : LineItemReq) =>
          ({ variant_id := i.variant_id, quantity := i.quantity } : OrderLineOut))
          ⟨n, q, p, t⟩ = { variant_id := n, quantity := q } ∧
      (fun (i : LineItemReq) =>
          ({ variant_id := i.variant_id, quantity := i.quantity, price := i.price } :
            OrderLineOutDirect))
          ⟨n, q, p, t⟩ = { variant_id := n, quantity := q, price := p }) ∧
    lineItemsDirectIdx items =
      items.map (fun i =>
        { variant_id := i.variant_id, quantity := i.quantity, price := i.price }) := by
  exact ⟨fun cd s b sp => rfl, fun n q p t => ⟨rfl, rfl⟩, rfl⟩

/-- C9 (confirmed): whenever the inventory check of `/place-order`
finds at least one unavailable item (after the email and line-item
guards pass), the handler responds via `res.json` — HTTP 200, not an
error status — with `success = false`,
`error = "insufficient_inventory"`, the human-readable enumeration of
the shortfalls, and an unavailable-items list that is exactly the
unavailable entries of the inventory check. -/
theorem C9_insufficient_inventory_response (lookup : Nat → Option VariantStock)
    (req : PlaceOrderReq) (ci : CustomerInRaw) (email : String)
    (hci : req.customer_info = some ci) (hemail : jsStr ci.email = some email)
    (hitems : req.line_items.isEmpty = false)
    (hunavail : 0 < ((validateInventoryForOrderIdx lookup req.line_items).filter
        (fun r => !r.available)).length) :
    placeOrder001 lookup req = Outcome001.reject
      { status := 200
        success := false
        error := "insufficient_inventory"
        message := "Sorry, some items are not available in the requested quantities: " ++
          unavailListMsg ((validateInventoryForOrderIdx lookup req.line_items).filter
            (fun r => !r.available)) ++ ". Please adjust your order."
        unavailable_items := (validateInventoryForOrderIdx lookup req.line_items).filter
          (fun r => !r.available)
        call_id := req.call_id } := by
  unfold placeOrder001
  rw [hci]
  simp only [hemail, hitems, Bool.false_eq_true, if_false, if_pos hunavail]

/-- A concrete stock table: variant 111 has 2 units. -/
def cexLookup111 : Nat → Option VariantStock := fun n =>
  if n = 111 then some { inventory_quantity := 2, title := "Blue Shirt", price := "10.00" }
  else none

/-- A concrete order request asking for 5 units of variant 111. -/
def cexReq111 : PlaceOrderReq :=
  { customer_info := some { first_name := some "Jane", last_name := some "Doe",
                            email := some "jane@example.com", phone := none }
    line_items := [⟨111, 5, none, none⟩]
    shipping_address := none
    billing_address := none
    special_instructions := none
    call_id := some "call-1" }

/-- Witness for C9: requesting 5 units of a variant with 2 in stock
yields the 200 rejection listing exactly that variant with
requested 5 / available 2. -/
theorem C9_witness :
    placeOrder001 cexLookup111 cexReq111 = Outcome001.reject
      { status := 200
        success := false
        error := "insufficient_inventory"
        message := "Sorry, some items are not available in the requested quantities: " ++
          "Blue Shirt (requested: 5, available: 2)" ++ ". Please adjust your order."
        unavailable_items := [{ variant_id := 111, requested_quantity := some 5,
                                available_quantity := some 2, available := false,
                                title := some "Blue Shirt", price := some "10.00",
                                error := none }]
        call_id := some "call-1" } := by
  have h := C9_insufficient_inventory_response cexLookup111 cexReq111
    { first_name := some "Jane", last_name := some "Doe",
      email := some "jane@example.com", phone := none } "jane@example.com"
    rfl rfl rfl (by decide)
  rw [h]
  decide

/-- One awaited step of the `/place-order` success path.  The handler
body is a single async function that `await`s each step in program
order, so the order of this list is the order in which the steps
complete. -/
inductive HandlerStep where
  | createDraftOrder
  | sendInvoice (ok : Bool)
  | webhookPost (timeoutMs : Option Nat) (eventType : String) (ok : Bool)
  | respondJson (status : Nat)
deriving DecidableEq, Repr

/-- The awaited-step sequence of the `/place-order` success path in
src/unnamed/part_001:226-296 (identical in src/unnamed/part_000:278-352):
create the draft order, send the invoice (its failure is caught),
then — when a webhook URL is configured — `await axios.post(MAKE_WEBHOOK_URL,
..., { timeout: 10000 })` inside a try/catch, and only then
`res.json(response)`.  `invoiceOk`/`webhookOk` record whether the
caught calls succeeded; neither changes the subsequent steps. -/
def placeOrderSuccessTrace001 (webhookConfigured invoiceOk webhookOk : Bool) :
    List HandlerStep :=
  [.createDraftOrder, .sendInvoice invoiceOk] ++
    (if webhookConfigured then
      [.webhookPost (some 10000) "draft_order_created" webhookOk] else []) ++
    [.respondJson 200]

/-- The same success path in src/index.js:457-501, whose webhook call
`await axios.post(MAKE_WEBHOOK_URL, ...)` is configured with no
timeout at all. -/
def placeOrderSuccessTraceIdx (webhookConfigured invoiceOk webhookOk : Bool) :
    List HandlerStep :=
  [.createDraftOrder, .sendInvoice invoiceOk] ++
    (if webhookConfigured then
      [.webhookPost none "draft_order_created" webhookOk] else []) ++
    [.respondJson 200]

/-- Recognizer for the webhook step. -/
def stepIsWebhook : HandlerStep → Bool
  | .webhookPost _ _ _ => true
  | _ => false

/-- Recognizer for the response step. -/
def stepIsRespond : HandlerStep → Bool
  | .respondJson _ => true
  | _ => false

/-- A webhook call is present in the trace and completes before the
HTTP response is sent. -/
def webhookCompletesBeforeResponse (t : List HandlerStep) : Bool :=
  t.any stepIsWebhook && decide (t.findIdx stepIsWebhook < t.findIdx stepIsRespond)

/-- C5 counterexample: the claim says the webhook outcome is never
awaited as a precondition for responding.  In the success path with a
webhook configured, the webhook POST is awaited and completes
(successfully or not) strictly before `res.json` runs; moreover the
src/index.js revision configures no timeout on that awaited call, so
no ≈10-second bound caps the wait there. -/
theorem C5_counterexample :
    webhookCompletesBeforeResponse (placeOrderSuccessTrace001 true true false) = true ∧
    placeOrderSuccessTrace001 true true false =
      [.createDraftOrder, .sendInvoice true,
       .webhookPost (some 10000) "draft_order_created" false, .respondJson 200] ∧
    placeOrderSuccessTraceIdx true true true =
      [.createDraftOrder, .sendInvoice true,
       .webhookPost none "draft_order_created" true, .respondJson 200] := by
  refine ⟨by decide, rfl, rfl⟩

/-- C5 (amended): the webhook notification cannot change the HTTP
response — the success path always ends by sending status 200 whatever
the webhook outcome, because the awaited call sits in a try/catch —
but the webhook call *is* awaited to completion before the response is
sent whenever a webhook URL is configured; the
src/unnamed/part_000 / part_001 revisions cap that awaited call with a
10000 ms timeout, whereas the src/index.js revision sets no timeout. -/
theorem C5_amended_webhook_sequencing (wc io wo : Bool) :
    (placeOrderSuccessTrace001 wc io wo).getLast? = some (HandlerStep.respondJson 200) ∧
    (placeOrderSuccessTraceIdx wc io wo).getLast? = some (HandlerStep.respondJson 200) ∧
    (wc = true →
      webhookCompletesBeforeResponse (placeOrderSuccessTrace001 wc io wo) = true ∧
      HandlerStep.webhookPost (some 10000) "draft_order_created" wo ∈
        placeOrderSuccessTrace001 wc io wo ∧
      HandlerStep.webhookPost none "draft_order_created" wo ∈
        placeOrderSuccessTraceIdx wc io wo) ∧
    (wc = false →
      (placeOrderSuccessTrace001 wc io wo).any stepIsWebhook = false) := by
  cases wc <;> cases io <;> cases wo <;> refine ⟨rfl, rfl, ?_, ?_⟩ <;> intro h <;>
    first
      | exact absurd h (by decide)
      | decide

/-- Witness for C5: the configured-webhook success path awaits the
webhook before responding, with the 10-second timeout in the
part_000/part_001 revisions and none in src/index.js. -/
theorem C5_witness :
    webhookCompletesBeforeResponse (placeOrderSuccessTrace001 true false true) = true ∧
    HandlerStep.webhookPost (some 10000) "draft_order_created" true ∈
      placeOrderSuccessTrace001 true false true ∧
    HandlerStep.webhookPost none "draft_order_created" true ∈
      placeOrderSuccessTraceIdx true false true := by
  have h := (C5_amended_webhook_sequencing true false true).2.2.1 rfl
  exact ⟨h.1, h.2.1, h.2.2⟩

/-- Outcome of the `POST /check-inventory` handler of
src/index.js:256-363 / src/unnamed/part_002:115-222, up to the point
where a found-products response is composed: a 400 input-validation
response, the 200 product-not-found response, or the 200 found
response (whose spoken message and match details no claim concerns). -/
inductive CheckInvOutcome where
  | badRequest (status : Nat) (success : Bool) (error : String)
  | notFound (status : Nat) (success : Bool) (found : Bool) (message : String)
  | found (status : Nat) (success : Bool) (found : Bool)
deriving DecidableEq, Repr

/-- The `POST /check-inventory` handler of src/index.js:256-363 and
src/unnamed/part_002:115-222: reject a falsy `product_name` with 400;
when the product search yields an empty catalog respond via
`res.json` (HTTP 200) with `success: true` and `found: false`;
otherwise respond 200 with `success: true` and `found: true`.
`catalog` is the product list returned by the external search. -/
def checkInventoryHandlerIdx (product_name : Option String)
    (catalog : List JsProduct) : CheckInvOutcome :=
  match jsStr product_name with
  | none => .badRequest 400 false "Product name is required"
  | some name =>
    if catalog.isEmpty then
      .notFound 200 true false
        ("Sorry, I couldn\x27t find any products matching \"" ++ name ++
          "\" in our inventory.")
    else
      .found 200 true true

/-- C10 (confirmed): a non-empty `product_name` whose product search
returns an empty catalog is answered with HTTP 200, `success = true`
and `found = false` — product-not-found is a successful response, not
an HTTP error. -/
theorem C10_not_found_response (product_name : Option String) (name : String)
    (catalog : List JsProduct) (hname : jsStr product_name = some name)
    (hempty : catalog = []) :
    checkInventoryHandlerIdx product_name catalog =
      CheckInvOutcome.notFound 200 true false
        ("Sorry, I couldn\x27t find any products matching \"" ++ name ++
          "\" in our inventory.") := by
  unfold checkInventoryHandlerIdx
  rw [hname, hempty]
  rfl

/-- Witness for C10: a concrete request for "widget" against an empty
catalog. -/
theorem C10_witness :
    checkInventoryHandlerIdx (some "widget") [] =
      CheckInvOutcome.notFound 200 true false
        "Sorry, I couldn\x27t find any products matching \"widget\" in our inventory." := by
  have h := C10_not_found_response (some "widget") "widget" [] rfl rfl
  rw [h]
  decide
